import Mathlib

/-!
Shallow embedding of `apps/data_handler/handler_tools/data_parser/nostra.py`:
a flat set of mapping functions that select fixed positions of a decoded
blockchain-event payload and build a named record from them.

Python semantics embedded here:
* a payload is a `List Value` (`Value` stands for Python's `Any` at this
  boundary: hex-address strings and integers);
* subscripting `event_data[i]` raises `IndexError` when `i` is out of range,
  which we model with `Except`-propagation (`pyGet`);
* a function body consisting of `pass` returns `None`, modelled as
  `Except.ok ()` — it is a normal return, not an exception.
-/

set_option autoImplicit false

deriving instance DecidableEq for Except

variable {α : Type}

/-- Python runtime outcomes other than a normal return that this module can
exhibit: an out-of-range subscript (`IndexError`) and — for comparison with
the spec's demand on the unimplemented stubs — `NotImplementedError`. -/
inductive PyError where
  | indexError
  | notImplementedError
deriving DecidableEq

/-- Values appearing in a decoded event payload (Python `Any` at this
boundary: hex-address strings and integers). -/
inductive Value where
  | str (s : String)
  | int (n : Int)
deriving DecidableEq

/-- Python list subscript `xs[i]` for a constant non-negative index: the
element when `i` is in range, an `IndexError` otherwise. -/
def pyGet (xs : List α) (i : Nat) : Except PyError α :=
  match xs[i]? with
  | some v => Except.ok v
  | none => Except.error PyError.indexError

/-- Modelled from the spec: record type `InterestRateModelEventData`, defined
in the `serializers` module which is outside the analysed sources; per the
spec's data model it is a plain record with fields `debt_token`,
`lending_index`, `borrow_index`. -/
structure InterestRateModelEventData (α : Type) where
  debt_token : α
  lending_index : α
  borrow_index : α
deriving DecidableEq

/-- Modelled from the spec: record type `BearingCollateralMintEventData`
(`serializers` module, outside the analysed sources); fields `user`,
`amount`. -/
structure BearingCollateralMintEventData (α : Type) where
  user : α
  amount : α
deriving DecidableEq

/-- Modelled from the spec: record type `BearingCollateralBurnEventData`
(`serializers` module, outside the analysed sources); fields `user`,
`amount`. -/
structure BearingCollateralBurnEventData (α : Type) where
  user : α
  amount : α
deriving DecidableEq

/-- Modelled from the spec: record type `DebtTransferEventData`
(`serializers` module, outside the analysed sources); fields `sender`,
`recipient`, `amount`, `token`. -/
structure DebtTransferEventData (α : Type) where
  sender : α
  recipient : α
  amount : α
  token : α
deriving DecidableEq

/-- Modelled from the spec: record type `DebtMintEventData` (`serializers`
module, outside the analysed sources); per the spec's data model its second
field is stored as `token` (although the source docstring calls it
"amount"). -/
structure DebtMintEventData (α : Type) where
  user : α
  token : α
deriving DecidableEq

/-- Modelled from the spec: record type `DebtBurnEventData` (`serializers`
module, outside the analysed sources); fields `user`, `amount`. -/
structure DebtBurnEventData (α : Type) where
  user : α
  amount : α
deriving DecidableEq

/-- `NostraDataParser.parse_interest_rate_model_event`: reads
`event_data[0]`, `event_data[5]`, `event_data[7]` (in this order, as Python
evaluates the keyword arguments) and builds an `InterestRateModelEventData`.
-/
def parse_interest_rate_model_event (event_data : List α) :
    Except PyError (InterestRateModelEventData α) := do
  let debt_token ← pyGet event_data 0
  let lending_index ← pyGet event_data 5
  let borrow_index ← pyGet event_data 7
  return { debt_token := debt_token, lending_index := lending_index,
           borrow_index := borrow_index }

/-- `NostraDataParser.parse_non_interest_bearing_collateral_mint_event`: the
body is `pass`, so the call returns `None` normally (modelled `Except.ok ()`);
no exception is raised. -/
def parse_non_interest_bearing_collateral_mint_event : Except PyError Unit :=
  Except.ok ()

/-- `NostraDataParser.parse_non_interest_bearing_collateral_burn_event`: the
body is `pass`, so the call returns `None` normally (modelled `Except.ok ()`);
no exception is raised. -/
def parse_non_interest_bearing_collateral_burn_event : Except PyError Unit :=
  Except.ok ()

/-- `NostraDataParser.parse_interest_bearing_collateral_mint_event`: reads
`event_data[0]` and `event_data[1]` and builds a
`BearingCollateralMintEventData`. -/
def parse_interest_bearing_collateral_mint_event (event_data : List α) :
    Except PyError (BearingCollateralMintEventData α) := do
  let user ← pyGet event_data 0
  let amount ← pyGet event_data 1
  return { user := user, amount := amount }

/-- `NostraDataParser.parse_interest_bearing_collateral_burn_event`: reads
`event_data[0]` and `event_data[1]` and builds a
`BearingCollateralBurnEventData`. -/
def parse_interest_bearing_collateral_burn_event (event_data : List α) :
    Except PyError (BearingCollateralBurnEventData α) := do
  let user ← pyGet event_data 0
  let amount ← pyGet event_data 1
  return { user := user, amount := amount }

/-- `NostraDataParser.parse_debt_transfer_event`: reads `event_data[0]`,
`event_data[1]`, `event_data[2]` for sender/recipient/amount and sets `token`
from the separate `from_address` argument (annotated `str` in the source; the
annotation is not enforced at runtime, so the value is kept at the payload
type). -/
def parse_debt_transfer_event (event_data : List α) (from_address : α) :
    Except PyError (DebtTransferEventData α) := do
  let sender ← pyGet event_data 0
  let recipient ← pyGet event_data 1
  let amount ← pyGet event_data 2
  return { sender := sender, recipient := recipient, amount := amount,
           token := from_address }

/-- `NostraDataParser.parse_debt_mint_event`: reads `event_data[0]` and
`event_data[1]` and builds a `DebtMintEventData`; the second value is stored
in the field named `token`. -/
def parse_debt_mint_event (event_data : List α) :
    Except PyError (DebtMintEventData α) := do
  let user ← pyGet event_data 0
  let token ← pyGet event_data 1
  return { user := user, token := token }

/-- `NostraDataParser.parse_debt_burn_event`: reads `event_data[0]` and
`event_data[1]` and builds a `DebtBurnEventData`. -/
def parse_debt_burn_event (event_data : List α) :
    Except PyError (DebtBurnEventData α) := do
  let user ← pyGet event_data 0
  let amount ← pyGet event_data 1
  return { user := user, amount := amount }

/-- Computation rule: binding a successful `Except` continues with the
value. -/
theorem except_bind_ok {ε β γ : Type} (a : β) (f : β → Except ε γ) :
    (Except.ok a : Except ε β) >>= f = f a := rfl

/-- Computation rule: binding a failed `Except` propagates the error. -/
theorem except_bind_err {ε β γ : Type} (e : ε) (f : β → Except ε γ) :
    (Except.error e : Except ε β) >>= f = Except.error e := rfl

/-- Computation rule: mapping over a successful `Except`. -/
theorem except_map_ok {ε β γ : Type} (a : β) (f : β → γ) :
    f <$> (Except.ok a : Except ε β) = Except.ok (f a) := rfl

/-- Computation rule: mapping over a failed `Except` propagates the error. -/
theorem except_map_err {ε β γ : Type} (e : ε) (f : β → γ) :
    f <$> (Except.error e : Except ε β) = Except.error e := rfl

/-- Subscripting succeeds and yields the element when the index is in
range. -/
theorem pyGet_ok (xs : List α) (i : Nat) (h : i < xs.length) :
    pyGet xs i = Except.ok xs[i] := by
  simp [pyGet, List.getElem?_eq_getElem h]

/-- Subscripting raises `IndexError` when the index is out of range. -/
theorem pyGet_err (xs : List α) (i : Nat) (h : xs.length ≤ i) :
    pyGet xs i = Except.error PyError.indexError := by
  simp [pyGet, List.getElem?_eq_none h]

/-- Success shape of `parse_interest_rate_model_event` on payloads with at
least 8 elements. -/
theorem parse_interest_rate_model_event_of_le (xs : List α) (h : 8 ≤ xs.length) :
    parse_interest_rate_model_event xs =
      Except.ok { debt_token := xs[0], lending_index := xs[5],
                  borrow_index := xs[7] } := by
  simp [parse_interest_rate_model_event, pyGet_ok xs 0 (by omega),
    pyGet_ok xs 5 (by omega), pyGet_ok xs 7 (by omega),
    except_bind_ok, except_map_ok]

/-- Failure of `parse_interest_rate_model_event` on payloads shorter than
8 elements. -/
theorem parse_interest_rate_model_event_err (xs : List α) (h : xs.length < 8) :
    parse_interest_rate_model_event xs = Except.error PyError.indexError := by
  have h7 : xs[7]? = none := List.getElem?_eq_none (by omega)
  cases h0 : xs[0]? with
  | none => simp [parse_interest_rate_model_event, pyGet, h0, except_bind_ok, except_bind_err, except_map_ok, except_map_err]
  | some d =>
    cases h5 : xs[5]? with
    | none => simp [parse_interest_rate_model_event, pyGet, h0, h5, except_bind_ok, except_bind_err, except_map_ok, except_map_err]
    | some l => simp [parse_interest_rate_model_event, pyGet, h0, h5, h7, except_bind_ok, except_bind_err, except_map_ok, except_map_err]

/-- Success shape of `parse_interest_bearing_collateral_mint_event` on
payloads with at least 2 elements. -/
theorem parse_interest_bearing_collateral_mint_event_of_le (xs : List α)
    (h : 2 ≤ xs.length) :
    parse_interest_bearing_collateral_mint_event xs =
      Except.ok { user := xs[0], amount := xs[1] } := by
  simp [parse_interest_bearing_collateral_mint_event,
    pyGet_ok xs 0 (by omega), pyGet_ok xs 1 (by omega), except_bind_ok, except_map_ok]

/-- Failure of `parse_interest_bearing_collateral_mint_event` on payloads
shorter than 2 elements. -/
theorem parse_interest_bearing_collateral_mint_event_err (xs : List α)
    (h : xs.length < 2) :
    parse_interest_bearing_collateral_mint_event xs =
      Except.error PyError.indexError := by
  have h1 : xs[1]? = none := List.getElem?_eq_none (by omega)
  cases h0 : xs[0]? with
  | none => simp [parse_interest_bearing_collateral_mint_event, pyGet, h0, except_bind_ok, except_bind_err, except_map_ok, except_map_err]
  | some u => simp [parse_interest_bearing_collateral_mint_event, pyGet, h0, h1, except_bind_ok, except_bind_err, except_map_ok, except_map_err]

/-- Success shape of `parse_interest_bearing_collateral_burn_event` on
payloads with at least 2 elements. -/
theorem parse_interest_bearing_collateral_burn_event_of_le (xs : List α)
    (h : 2 ≤ xs.length) :
    parse_interest_bearing_collateral_burn_event xs =
      Except.ok { user := xs[0], amount := xs[1] } := by
  simp [parse_interest_bearing_collateral_burn_event,
    pyGet_ok xs 0 (by omega), pyGet_ok xs 1 (by omega), except_bind_ok, except_map_ok]

/-- Failure of `parse_interest_bearing_collateral_burn_event` on payloads
shorter than 2 elements. -/
theorem parse_interest_bearing_collateral_burn_event_err (xs : List α)
    (h : xs.length < 2) :
    parse_interest_bearing_collateral_burn_event xs =
      Except.error PyError.indexError := by
  have h1 : xs[1]? = none := List.getElem?_eq_none (by omega)
  cases h0 : xs[0]? with
  | none => simp [parse_interest_bearing_collateral_burn_event, pyGet, h0, except_bind_ok, except_bind_err, except_map_ok, except_map_err]
  | some u => simp [parse_interest_bearing_collateral_burn_event, pyGet, h0, h1, except_bind_ok, except_bind_err, except_map_ok, except_map_err]

/-- Success shape of `parse_debt_transfer_event` on payloads with at least
3 elements. -/
theorem parse_debt_transfer_event_of_le (xs : List α) (fa : α)
    (h : 3 ≤ xs.length) :
    parse_debt_transfer_event xs fa =
      Except.ok { sender := xs[0], recipient := xs[1], amount := xs[2],
                  token := fa } := by
  simp [parse_debt_transfer_event, pyGet_ok xs 0 (by omega),
    pyGet_ok xs 1 (by omega), pyGet_ok xs 2 (by omega),
    except_bind_ok, except_map_ok]

/-- Failure of `parse_debt_transfer_event` on payloads shorter than
3 elements. -/
theorem parse_debt_transfer_event_err (xs : List α) (fa : α)
    (h : xs.length < 3) :
    parse_debt_transfer_event xs fa = Except.error PyError.indexError := by
  have h2 : xs[2]? = none := List.getElem?_eq_none (by omega)
  cases h0 : xs[0]? with
  | none => simp [parse_debt_transfer_event, pyGet, h0, except_bind_ok, except_bind_err, except_map_ok, except_map_err]
  | some s =>
    cases h1 : xs[1]? with
    | none => simp [parse_debt_transfer_event, pyGet, h0, h1, except_bind_ok, except_bind_err, except_map_ok, except_map_err]
    | some r => simp [parse_debt_transfer_event, pyGet, h0, h1, h2, except_bind_ok, except_bind_err, except_map_ok, except_map_err]

/-- Success shape of `parse_debt_mint_event` on payloads with at least
2 elements. -/
theorem parse_debt_mint_event_of_le (xs : List α) (h : 2 ≤ xs.length) :
    parse_debt_mint_event xs = Except.ok { user := xs[0], token := xs[1] } := by
  simp [parse_debt_mint_event, pyGet_ok xs 0 (by omega),
    pyGet_ok xs 1 (by omega), except_bind_ok, except_map_ok]

/-- Failure of `parse_debt_mint_event` on payloads shorter than 2 elements. -/
theorem parse_debt_mint_event_err (xs : List α) (h : xs.length < 2) :
    parse_debt_mint_event xs = Except.error PyError.indexError := by
  have h1 : xs[1]? = none := List.getElem?_eq_none (by omega)
  cases h0 : xs[0]? with
  | none => simp [parse_debt_mint_event, pyGet, h0, except_bind_ok, except_bind_err, except_map_ok, except_map_err]
  | some u => simp [parse_debt_mint_event, pyGet, h0, h1, except_bind_ok, except_bind_err, except_map_ok, except_map_err]

/-- Success shape of `parse_debt_burn_event` on payloads with at least
2 elements. -/
theorem parse_debt_burn_event_of_le (xs : List α) (h : 2 ≤ xs.length) :
    parse_debt_burn_event xs = Except.ok { user := xs[0], amount := xs[1] } := by
  simp [parse_debt_burn_event, pyGet_ok xs 0 (by omega),
    pyGet_ok xs 1 (by omega), except_bind_ok, except_map_ok]

/-- Failure of `parse_debt_burn_event` on payloads shorter than 2 elements. -/
theorem parse_debt_burn_event_err (xs : List α) (h : xs.length < 2) :
    parse_debt_burn_event xs = Except.error PyError.indexError := by
  have h1 : xs[1]? = none := List.getElem?_eq_none (by omega)
  cases h0 : xs[0]? with
  | none => simp [parse_debt_burn_event, pyGet, h0, except_bind_ok, except_bind_err, except_map_ok, except_map_err]
  | some u => simp [parse_debt_burn_event, pyGet, h0, h1, except_bind_ok, except_bind_err, except_map_ok, except_map_err]

/-- C1 counterexample: the claim's concrete example is wrong. In the
9-element list `["0xabc", 1, 2, 3, 4, 100000000000000000, 6, 7,
200000000000000000]` the element at index 7 is `7` (the value
`200000000000000000` sits at index 8), so `parse_interest_rate_model_event`
returns `borrow_index = 7` there, not `borrow_index = 200000000000000000` as
the claim asserts. -/
theorem C1_counterexample :
    parse_interest_rate_model_event
        [Value.str "0xabc", Value.int 1, Value.int 2, Value.int 3,
         Value.int 4, Value.int 100000000000000000, Value.int 6, Value.int 7,
         Value.int 200000000000000000] =
      Except.ok { debt_token := Value.str "0xabc",
                  lending_index := Value.int 100000000000000000,
                  borrow_index := Value.int 7 } ∧
    parse_interest_rate_model_event
        [Value.str "0xabc", Value.int 1, Value.int 2, Value.int 3,
         Value.int 4, Value.int 100000000000000000, Value.int 6, Value.int 7,
         Value.int 200000000000000000] ≠
      Except.ok { debt_token := Value.str "0xabc",
                  lending_index := Value.int 100000000000000000,
                  borrow_index := Value.int 200000000000000000 } := by
  decide

/-- C1 (amended): for every payload with at least 8 elements,
`parse_interest_rate_model_event` returns the `InterestRateModelEventData`
record whose `debt_token`, `lending_index` and `borrow_index` fields equal
the input elements at indices 0, 5 and 7 respectively; in particular, on the
claim's example input the returned `borrow_index` is the element at index 7,
namely `7`. -/
theorem C1_interest_rate_model_event_fields (xs : List α) (h : 8 ≤ xs.length) :
    parse_interest_rate_model_event xs =
      Except.ok { debt_token := xs[0], lending_index := xs[5],
                  borrow_index := xs[7] } :=
  parse_interest_rate_model_event_of_le xs h

/-- Witness for C1 (amended) at the claim's example input
`["0xabc", 1, 2, 3, 4, 100000000000000000, 6, 7, 200000000000000000]`: the
element at index 7 of that list is `7`. -/
theorem C1_witness :
    8 ≤ ([Value.str "0xabc", Value.int 1, Value.int 2, Value.int 3,
          Value.int 4, Value.int 100000000000000000, Value.int 6, Value.int 7,
          Value.int 200000000000000000] : List Value).length ∧
    parse_interest_rate_model_event
        [Value.str "0xabc", Value.int 1, Value.int 2, Value.int 3,
         Value.int 4, Value.int 100000000000000000, Value.int 6, Value.int 7,
         Value.int 200000000000000000] =
      Except.ok { debt_token := Value.str "0xabc",
                  lending_index := Value.int 100000000000000000,
                  borrow_index := Value.int 7 } :=
  ⟨by decide, by
   have h := C1_interest_rate_model_event_fields
     [Value.str "0xabc", Value.int 1, Value.int 2, Value.int 3,
      Value.int 4, Value.int 100000000000000000, Value.int 6, Value.int 7,
      Value.int 200000000000000000] (by decide)
   simpa using h⟩

/-- C2 counterexample: the claim asserts the `token` field "never equals the
element at index 3", but `token` is simply `from_address`, so passing a
`from_address` equal to `event_data[3]` makes them coincide: on
`["0xs", "0xr", 5, "0xt"]` with `from_address = "0xt"` the returned record's
`token` equals the element at index 3. -/
theorem C2_counterexample :
    parse_debt_transfer_event
        [Value.str "0xs", Value.str "0xr", Value.int 5, Value.str "0xt"]
        (Value.str "0xt") =
      Except.ok { sender := Value.str "0xs", recipient := Value.str "0xr",
                  amount := Value.int 5, token := Value.str "0xt" } ∧
    [Value.str "0xs", Value.str "0xr", Value.int 5,
     Value.str "0xt"][3]? = some (Value.str "0xt") := by
  decide

/-- C2 (amended): for every payload with at least 3 elements and every
`from_address`, `parse_debt_transfer_event` returns the record with
`sender = event_data[0]`, `recipient = event_data[1]`,
`amount = event_data[2]` and `token = from_address`; `token` is taken from
`from_address` and not from the payload, so whenever `from_address` differs
from `event_data[3]` the returned `token` differs from `event_data[3]` as
well. -/
theorem C2_debt_transfer_event_fields (xs : List α) (fa : α)
    (h : 3 ≤ xs.length) :
    parse_debt_transfer_event xs fa =
      Except.ok { sender := xs[0], recipient := xs[1], amount := xs[2],
                  token := fa } ∧
    ∀ (h4 : 4 ≤ xs.length), fa ≠ xs[3] →
      ∀ r, parse_debt_transfer_event xs fa = Except.ok r → r.token ≠ xs[3] := by
  refine ⟨parse_debt_transfer_event_of_le xs fa h, ?_⟩
  intro h4 hne r hr
  rw [parse_debt_transfer_event_of_le xs fa h] at hr
  cases hr
  exact hne

/-- Witness for C2 (amended) at the payload
`["0xs", "0xr", 5, "0xother"]` with `from_address = "0xt"`. -/
theorem C2_witness :
    parse_debt_transfer_event
        [Value.str "0xs", Value.str "0xr", Value.int 5, Value.str "0xother"]
        (Value.str "0xt") =
      Except.ok { sender := Value.str "0xs", recipient := Value.str "0xr",
                  amount := Value.int 5, token := Value.str "0xt" } ∧
    ∀ r, parse_debt_transfer_event
        [Value.str "0xs", Value.str "0xr", Value.int 5, Value.str "0xother"]
        (Value.str "0xt") = Except.ok r → r.token ≠ Value.str "0xother" := by
  have h := C2_debt_transfer_event_fields
    [Value.str "0xs", Value.str "0xr", Value.int 5, Value.str "0xother"]
    (Value.str "0xt") (by decide)
  exact ⟨h.1, fun r hr => h.2 (by decide) (by decide) r hr⟩

/-- C3: contrary to the claim (and to the spec's error-handling design), the
two unimplemented mappers do not produce a "not implemented" failure signal:
their bodies are `pass`, so each call silently returns the default value
`None` — exactly the silent-default behaviour the claim rules out. -/
theorem C3_stubs_return_none_silently :
    parse_non_interest_bearing_collateral_mint_event = Except.ok () ∧
    parse_non_interest_bearing_collateral_burn_event = Except.ok () ∧
    parse_non_interest_bearing_collateral_mint_event ≠
      Except.error PyError.notImplementedError ∧
    parse_non_interest_bearing_collateral_burn_event ≠
      Except.error PyError.notImplementedError := by
  decide

/-- C4: for every payload shorter than the minimum length required by a
mapping operation (8 elements for `parse_interest_rate_model_event`, 3 for
`parse_debt_transfer_event`, 2 for the interest-bearing collateral mint/burn,
debt mint and debt burn mappers), that operation fails with `IndexError` and
returns no record. -/
theorem C4_short_input_index_error (xs : List α) (fa : α) :
    (xs.length < 8 →
      parse_interest_rate_model_event xs = Except.error PyError.indexError) ∧
    (xs.length < 3 →
      parse_debt_transfer_event xs fa = Except.error PyError.indexError) ∧
    (xs.length < 2 →
      parse_interest_bearing_collateral_mint_event xs =
        Except.error PyError.indexError) ∧
    (xs.length < 2 →
      parse_interest_bearing_collateral_burn_event xs =
        Except.error PyError.indexError) ∧
    (xs.length < 2 →
      parse_debt_mint_event xs = Except.error PyError.indexError) ∧
    (xs.length < 2 →
      parse_debt_burn_event xs = Except.error PyError.indexError) :=
  ⟨parse_interest_rate_model_event_err xs,
   parse_debt_transfer_event_err xs fa,
   parse_interest_bearing_collateral_mint_event_err xs,
   parse_interest_bearing_collateral_burn_event_err xs,
   parse_debt_mint_event_err xs,
   parse_debt_burn_event_err xs⟩

/-- Witness for C4 at the one-element payload `["0xa"]`, which is shorter
than every mapper's minimum length. -/
theorem C4_witness :
    parse_interest_rate_model_event [Value.str "0xa"] =
      Except.error PyError.indexError ∧
    parse_debt_transfer_event [Value.str "0xa"] (Value.str "0xf") =
      Except.error PyError.indexError ∧
    parse_interest_bearing_collateral_mint_event [Value.str "0xa"] =
      Except.error PyError.indexError ∧
    parse_interest_bearing_collateral_burn_event [Value.str "0xa"] =
      Except.error PyError.indexError ∧
    parse_debt_mint_event [Value.str "0xa"] =
      Except.error PyError.indexError ∧
    parse_debt_burn_event [Value.str "0xa"] =
      Except.error PyError.indexError := by
  have h := C4_short_input_index_error [Value.str "0xa"] (Value.str "0xf")
  exact ⟨h.1 (by decide), h.2.1 (by decide), h.2.2.1 (by decide),
    h.2.2.2.1 (by decide), h.2.2.2.2.1 (by decide), h.2.2.2.2.2 (by decide)⟩

/-- C5: for every payload with at least 2 elements, `parse_debt_mint_event`
returns the `DebtMintEventData` record whose `user` field equals the element
at index 0 and whose `token` field (so named, despite the docstring calling
the value "amount") equals the element at index 1. -/
theorem C5_debt_mint_event_fields (xs : List α) (h : 2 ≤ xs.length) :
    parse_debt_mint_event xs = Except.ok { user := xs[0], token := xs[1] } :=
  parse_debt_mint_event_of_le xs h

/-- Witness for C5 at the payload `["0xuser", "0xtok"]`. -/
theorem C5_witness :
    parse_debt_mint_event [Value.str "0xuser", Value.str "0xtok"] =
      Except.ok { user := Value.str "0xuser", token := Value.str "0xtok" } := by
  have h := C5_debt_mint_event_fields
    [Value.str "0xuser", Value.str "0xtok"] (by decide)
  simpa using h

/-- C6: for every payload with at least 2 elements, `parse_debt_burn_event`
returns the `DebtBurnEventData` record with `user` equal to the element at
index 0 and `amount` equal to the element at index 1; in particular, on
`["0xuser", 42]` it returns `user = "0xuser"`, `amount = 42`. -/
theorem C6_debt_burn_event_fields (xs : List α) (h : 2 ≤ xs.length) :
    parse_debt_burn_event xs = Except.ok { user := xs[0], amount := xs[1] } :=
  parse_debt_burn_event_of_le xs h

/-- Witness for C6 at the spec's example payload `["0xuser", 42]`. -/
theorem C6_witness :
    parse_debt_burn_event [Value.str "0xuser", Value.int 42] =
      Except.ok { user := Value.str "0xuser", amount := Value.int 42 } := by
  have h := C6_debt_burn_event_fields
    [Value.str "0xuser", Value.int 42] (by decide)
  simpa using h

/-- C7: every implemented mapper is deterministic — two calls on identical
input yield records with identical field values. In the embedding each
mapper is a pure function of its arguments (the source methods read no
instance or global state), so two successful results of the same call
coincide. -/
theorem C7_mappers_deterministic :
    (∀ (xs : List α) r₁ r₂,
      parse_interest_rate_model_event xs = Except.ok r₁ →
      parse_interest_rate_model_event xs = Except.ok r₂ → r₁ = r₂) ∧
    (∀ (xs : List α) r₁ r₂,
      parse_interest_bearing_collateral_mint_event xs = Except.ok r₁ →
      parse_interest_bearing_collateral_mint_event xs = Except.ok r₂ →
      r₁ = r₂) ∧
    (∀ (xs : List α) r₁ r₂,
      parse_interest_bearing_collateral_burn_event xs = Except.ok r₁ →
      parse_interest_bearing_collateral_burn_event xs = Except.ok r₂ →
      r₁ = r₂) ∧
    (∀ (xs : List α) (fa : α) r₁ r₂,
      parse_debt_transfer_event xs fa = Except.ok r₁ →
      parse_debt_transfer_event xs fa = Except.ok r₂ → r₁ = r₂) ∧
    (∀ (xs : List α) r₁ r₂,
      parse_debt_mint_event xs = Except.ok r₁ →
      parse_debt_mint_event xs = Except.ok r₂ → r₁ = r₂) ∧
    (∀ (xs : List α) r₁ r₂,
      parse_debt_burn_event xs = Except.ok r₁ →
      parse_debt_burn_event xs = Except.ok r₂ → r₁ = r₂) := by
  refine ⟨?_, ?_, ?_, ?_, ?_, ?_⟩ <;>
    intro xs <;> intros <;> simp_all

/-- Witness for C7: each determinism conjunct applied at a concrete call
whose result is evaluated. -/
theorem C7_witness :
    ({ debt_token := Value.str "0xa", lending_index := Value.int 5,
       borrow_index := Value.int 7 } : InterestRateModelEventData Value) =
      { debt_token := Value.str "0xa", lending_index := Value.int 5,
        borrow_index := Value.int 7 } ∧
    ({ user := Value.str "0xu", amount := Value.int 1 } :
        BearingCollateralMintEventData Value) =
      { user := Value.str "0xu", amount := Value.int 1 } ∧
    ({ user := Value.str "0xu", amount := Value.int 1 } :
        BearingCollateralBurnEventData Value) =
      { user := Value.str "0xu", amount := Value.int 1 } ∧
    ({ sender := Value.str "0xs", recipient := Value.str "0xr",
       amount := Value.int 2, token := Value.str "0xt" } :
        DebtTransferEventData Value) =
      { sender := Value.str "0xs", recipient := Value.str "0xr",
        amount := Value.int 2, token := Value.str "0xt" } ∧
    ({ user := Value.str "0xu", token := Value.str "0xt" } :
        DebtMintEventData Value) =
      { user := Value.str "0xu", token := Value.str "0xt" } ∧
    ({ user := Value.str "0xu", amount := Value.int 3 } :
        DebtBurnEventData Value) =
      { user := Value.str "0xu", amount := Value.int 3 } := by
  have h := C7_mappers_deterministic (α := Value)
  refine ⟨h.1 [Value.str "0xa", Value.int 1, Value.int 2, Value.int 3,
      Value.int 4, Value.int 5, Value.int 6, Value.int 7] _ _
      (by decide) (by decide), ?_, ?_, ?_, ?_, ?_⟩
  · exact h.2.1 [Value.str "0xu", Value.int 1] _ _ (by decide) (by decide)
  · exact h.2.2.1 [Value.str "0xu", Value.int 1] _ _ (by decide) (by decide)
  · exact h.2.2.2.1 [Value.str "0xs", Value.str "0xr", Value.int 2]
      (Value.str "0xt") _ _ (by decide) (by decide)
  · exact h.2.2.2.2.1 [Value.str "0xu", Value.str "0xt"] _ _
      (by decide) (by decide)
  · exact h.2.2.2.2.2 [Value.str "0xu", Value.int 3] _ _
      (by decide) (by decide)

/-- C8: `parse_interest_rate_model_event` succeeds on every payload of
exactly 8 elements — it only accesses indices 0, 5 and 7, so no error is
raised for a missing ninth element even though the spec describes the input
as a 9-element list. -/
theorem C8_interest_rate_model_event_eight_elements (xs : List α)
    (h : xs.length = 8) :
    parse_interest_rate_model_event xs =
      Except.ok { debt_token := xs[0], lending_index := xs[5],
                  borrow_index := xs[7] } :=
  parse_interest_rate_model_event_of_le xs (by omega)

/-- Witness for C8 at an 8-element payload. -/
theorem C8_witness :
    parse_interest_rate_model_event
        [Value.str "0xabc", Value.int 1, Value.int 2, Value.int 3,
         Value.int 4, Value.int 100000000000000000, Value.int 6,
         Value.int 200000000000000000] =
      Except.ok { debt_token := Value.str "0xabc",
                  lending_index := Value.int 100000000000000000,
                  borrow_index := Value.int 200000000000000000 } := by
  have h := C8_interest_rate_model_event_eight_elements
    [Value.str "0xabc", Value.int 1, Value.int 2, Value.int 3,
     Value.int 4, Value.int 100000000000000000, Value.int 6,
     Value.int 200000000000000000] (by decide)
  simpa using h

/-- C9: the result of `parse_interest_rate_model_event` depends only on the
input elements at indices 0, 5 and 7 — two payloads of length at least 8
that agree there yield equal results, whatever the other elements are. -/
theorem C9_interest_rate_model_event_depends_only_on_0_5_7
    (xs ys : List α) (hx : 8 ≤ xs.length) (hy : 8 ≤ ys.length)
    (h0 : xs[0] = ys[0]) (h5 : xs[5] = ys[5]) (h7 : xs[7] = ys[7]) :
    parse_interest_rate_model_event xs = parse_interest_rate_model_event ys := by
  rw [parse_interest_rate_model_event_of_le xs hx,
    parse_interest_rate_model_event_of_le ys hy, h0, h5, h7]

/-- Witness for C9: two payloads agreeing at indices 0, 5, 7 and differing
everywhere else (including one trailing extra element) parse identically. -/
theorem C9_witness :
    parse_interest_rate_model_event
        [Value.str "0xabc", Value.int 1, Value.int 2, Value.int 3,
         Value.int 4, Value.int 55, Value.int 6, Value.int 77,
         Value.int 8] =
      parse_interest_rate_model_event
        [Value.str "0xabc", Value.int 91, Value.int 92, Value.int 93,
         Value.int 94, Value.int 55, Value.int 96, Value.int 77] :=
  C9_interest_rate_model_event_depends_only_on_0_5_7
    [Value.str "0xabc", Value.int 1, Value.int 2, Value.int 3,
     Value.int 4, Value.int 55, Value.int 6, Value.int 77, Value.int 8]
    [Value.str "0xabc", Value.int 91, Value.int 92, Value.int 93,
     Value.int 94, Value.int 55, Value.int 96, Value.int 77]
    (by decide) (by decide) (by decide) (by decide) (by decide)

/-- C10: the result of `parse_debt_transfer_event` depends only on the input
elements at indices 0, 1 and 2 plus the `from_address` argument — two
payloads of length at least 3 that agree there, with the same
`from_address`, yield equal results, whatever lies at index 3 and beyond. -/
theorem C10_debt_transfer_event_depends_only_on_0_1_2
    (xs ys : List α) (fa : α) (hx : 3 ≤ xs.length) (hy : 3 ≤ ys.length)
    (h0 : xs[0] = ys[0]) (h1 : xs[1] = ys[1]) (h2 : xs[2] = ys[2]) :
    parse_debt_transfer_event xs fa = parse_debt_transfer_event ys fa := by
  rw [parse_debt_transfer_event_of_le xs fa hx,
    parse_debt_transfer_event_of_le ys fa hy, h0, h1, h2]

/-- Witness for C10: two payloads agreeing at indices 0, 1, 2 and differing
at index 3 and beyond parse identically under the same `from_address`. -/
theorem C10_witness :
    parse_debt_transfer_event
        [Value.str "0xs", Value.str "0xr", Value.int 5, Value.str "0xd",
         Value.int 9] (Value.str "0xt") =
      parse_debt_transfer_event
        [Value.str "0xs", Value.str "0xr", Value.int 5, Value.int 123]
        (Value.str "0xt") :=
  C10_debt_transfer_event_depends_only_on_0_1_2
    [Value.str "0xs", Value.str "0xr", Value.int 5, Value.str "0xd",
     Value.int 9]
    [Value.str "0xs", Value.str "0xr", Value.int 5, Value.int 123]
    (Value.str "0xt")
    (by decide) (by decide) (by decide) (by decide) (by decide)
